import Mathlib

/-!
Shallow embedding of `src/ser/indexed.rs` from the `dash-rs` repository:
the `IndexedSerializer`, a serde `Serializer` that joins serialized fields
of a struct with a fixed delimiter into one flat output buffer.

Modelling conventions:
- The byte buffer `Vec<u8>` (which the code keeps UTF-8-valid by
  construction) is modelled at the text level as a `List Char`; the
  delimiter `&'static [u8]` likewise.
- Machine integers of every width are modelled as `Int`; `itoa::write`
  produces the decimal form with a leading minus for negatives, which is
  Lean's `toString : Int → String`.
- `dtoa::write` (an external crate) renders a float to its shortest
  round-trippable decimal form; floats are carried as that rendered
  string, since the serializer only pipes the rendered bytes through.
- `base64::encode_config_slice` with `base64::URL_SAFE` (an external
  crate; the URL-safe alphabet, with `=` padding) is reimplemented below
  as `base64EncodeUrlSafe`.
- Serde's fallible methods `fn serialize_x(&mut self, ...) -> Result<(), Error>`
  become `IndexedSerializer → Except Error Unit × IndexedSerializer`:
  the result and the state after the call.
-/

namespace DashRs

/-- The serializer error type: `Error::Unsupported(&'static str)` carrying
the name of the rejected serde method. (`Error::custom` can only arise from
a failed write into the `Vec<u8>` buffer, which never fails.) -/
inductive Error where
  | unsupported (name : String)
deriving DecidableEq, Repr

/-- State of `IndexedSerializer` (src/ser/indexed.rs, lines 11-24). -/
structure IndexedSerializer where
  delimiter : List Char
  buffer : List Char
  map_like : Bool
  is_start : Bool
deriving DecidableEq, Repr

/-- Constructor `IndexedSerializer::new` (lines 27-34). `with_capacity`
differs only by a buffer capacity hint, which has no semantic content. -/
def IndexedSerializer.new (delimiter : String) (map_like : Bool) : IndexedSerializer :=
  { delimiter := delimiter.data, buffer := [], map_like := map_like, is_start := true }

/-- Finalizer `finish` (lines 45-51): the accumulated buffer as a string. -/
def IndexedSerializer.finish (s : IndexedSerializer) : String :=
  String.mk s.buffer

/-- Private helper `append_integer` (lines 53-63): delimiter unless at
start, then the decimal form of the integer via `itoa`. -/
def IndexedSerializer.append_integer (s : IndexedSerializer) (int : Int) : IndexedSerializer :=
  if s.is_start then
    { s with is_start := false, buffer := s.buffer ++ (toString int).data }
  else
    { s with buffer := s.buffer ++ s.delimiter ++ (toString int).data }

/-- Private helper `append_float` (lines 65-75): delimiter unless at
start, then the shortest round-trippable decimal form via `dtoa`, carried
here as the pre-rendered string `floatShortest`. -/
def IndexedSerializer.append_float (s : IndexedSerializer) (floatShortest : String) : IndexedSerializer :=
  if s.is_start then
    { s with is_start := false, buffer := s.buffer ++ floatShortest.data }
  else
    { s with buffer := s.buffer ++ s.delimiter ++ floatShortest.data }

/-- Private helper `append` (lines 77-87): delimiter unless at start, then
the raw bytes of the string. -/
def IndexedSerializer.append (s : IndexedSerializer) (str : String) : IndexedSerializer :=
  if s.is_start then
    { s with is_start := false, buffer := s.buffer ++ str.data }
  else
    { s with buffer := s.buffer ++ s.delimiter ++ str.data }

/-- The 64-character URL-safe base64 alphabet used by `base64::URL_SAFE`:
`-` and `_` in place of `+` and `/`. -/
def URL_SAFE_ALPHABET : List Char :=
  "ABCDEFGHIJKLMNOPQRSTUVWXYZabcdefghijklmnopqrstuvwxyz0123456789-_".data

/-- Table lookup into the URL-safe alphabet (index taken modulo nothing:
encoding only ever produces indices below 64). -/
def b64Char (n : Nat) : Char :=
  URL_SAFE_ALPHABET.getD n 'A'

/-- The external `base64` crate's `encode_config_slice` with the
`URL_SAFE` config: URL-safe alphabet, `=`-padded. Bytes are `Nat`s below
256; each 3-byte group becomes 4 alphabet characters, a trailing group of
1 or 2 bytes is padded with `==` or `=`. -/
def base64EncodeUrlSafe : List Nat → List Char
  | [] => []
  | [b1] =>
      [b64Char (b1 >>> 2), b64Char ((b1 &&& 3) <<< 4), '=', '=']
  | [b1, b2] =>
      [b64Char (b1 >>> 2), b64Char (((b1 &&& 3) <<< 4) ||| (b2 >>> 4)),
       b64Char ((b2 &&& 15) <<< 2), '=']
  | b1 :: b2 :: b3 :: rest =>
      [b64Char (b1 >>> 2), b64Char (((b1 &&& 3) <<< 4) ||| (b2 >>> 4)),
       b64Char (((b2 &&& 15) <<< 2) ||| (b3 >>> 6)), b64Char (b3 &&& 63)]
      ++ base64EncodeUrlSafe rest

/-- Method `serialize_bytes` (lines 157-168): base64-encodes the bytes
into a region resized onto the end of the buffer, then trims to the
written length. Net effect: the encoded text is appended directly — no
delimiter is written and `is_start` is not read or cleared. -/
def IndexedSerializer.serialize_bytes (s : IndexedSerializer) (v : List Nat) :
    Except Error Unit × IndexedSerializer :=
  (.ok (), { s with buffer := s.buffer ++ base64EncodeUrlSafe v })

/-- Method `serialize_none` (lines 170-173): unconditionally appends the
delimiter; `is_start` is neither consulted nor cleared. -/
def IndexedSerializer.serialize_none (s : IndexedSerializer) :
    Except Error Unit × IndexedSerializer :=
  (.ok (), { s with buffer := s.buffer ++ s.delimiter })

mutual

/-- The serde data model as driven at `IndexedSerializer`: every value
shape that can reach one of the `Serializer` methods. A float carries its
`dtoa`-rendered shortest decimal form; a `displayValue` carries the
`Display`-rendered text that would reach `collect_str`. -/
inductive Value where
  | bool (v : Bool)
  | int (v : Int)
  | float (shortest : String)
  | char (v : Char)
  | str (v : String)
  | bytes (v : List Nat)
  | none
  | some (v : Value)
  | struct (name : String) (fields : Fields)
  | unit
  | unitStruct (name : String)
  | unitVariant (name : String) (variantIndex : Nat) (variant : String)
  | newtypeStruct (name : String) (v : Value)
  | newtypeVariant (name : String) (variantIndex : Nat) (variant : String) (v : Value)
  | seq (elems : List Value)
  | tuple (elems : List Value)
  | tupleStruct (name : String) (elems : List Value)
  | tupleVariant (name : String) (variantIndex : Nat) (variant : String) (elems : List Value)
  | map (entries : List (Value × Value))
  | structVariant (name : String) (variantIndex : Nat) (variant : String) (fields : Fields)
  | displayValue (displayed : String)

/-- The named fields of a struct, in declaration order. -/
inductive Fields where
  | nil
  | cons (name : String) (v : Value) (rest : Fields)

end

mutual

/-- The `Serializer` impl for `&mut IndexedSerializer` (lines 90-249):
one dispatch per value shape. Supported primitives go through the append
helpers, bytes through base64, `Some` is transparent, structs delegate to
the field protocol, and every other shape returns
`Error::Unsupported(<method name>)` without touching the buffer. -/
def serializeValue : Value → IndexedSerializer → Except Error Unit × IndexedSerializer
  | .bool v, s => (.ok (), s.append (if v then "1" else "0"))
  | .int v, s => (.ok (), s.append_integer v)
  | .float shortest, s => (.ok (), s.append_float shortest)
  | .char v, s => (.ok (), s.append (String.mk [v]))
  | .str v, s => (.ok (), s.append v)
  | .bytes v, s => s.serialize_bytes v
  | .none, s => s.serialize_none
  | .some v, s => serializeValue v s
  | .struct _ fields, s => serializeFields fields s
  | .unit, s => (.error (.unsupported "serialize_unit"), s)
  | .unitStruct _, s => (.error (.unsupported "serialize_unit_struct"), s)
  | .unitVariant _ _ _, s => (.error (.unsupported "serialize_unit_variant"), s)
  | .newtypeStruct _ _, s => (.error (.unsupported "serialize_newtype_struct"), s)
  | .newtypeVariant _ _ _ _, s => (.error (.unsupported "serialize_newtype_variant"), s)
  | .seq _, s => (.error (.unsupported "serialize_seq"), s)
  | .tuple _, s => (.error (.unsupported "serialize_tuple"), s)
  | .tupleStruct _ _, s => (.error (.unsupported "serialize_tuple_struct"), s)
  | .tupleVariant _ _ _ _, s => (.error (.unsupported "serialize_tuple_variant"), s)
  | .map _, s => (.error (.unsupported "serialize_map"), s)
  | .structVariant _ _ _ _, s => (.error (.unsupported "serialize_struct_variant"), s)
  | .displayValue _, s => (.error (.unsupported "collect_str"), s)

/-- The `SerializeStruct` impl (lines 251-268): `serialize_field` appends
the field name first when `map_like`, then serializes the value, stopping
at the first error; `end` has no effect. -/
def serializeFields : Fields → IndexedSerializer → Except Error Unit × IndexedSerializer
  | .nil, s => (.ok (), s)
  | .cons key v rest, s =>
      let s1 := if s.map_like then s.append key else s
      match serializeValue v s1 with
      | (.ok _, s2) => serializeFields rest s2
      | (.error e, s2) => (.error e, s2)

end

/-- One full encoding session: a fresh serializer, one traversal of the
value, and `finish` on success. -/
def encodeValue (delimiter : String) (map_like : Bool) (v : Value) : Except Error String :=
  match serializeValue v (IndexedSerializer.new delimiter map_like) with
  | (.ok _, s) => .ok s.finish
  | (.error e, _) => .error e

/-- One append operation on the append engine, in the spec's taxonomy:
integer, float, text, or absent. (The float again carries its rendered
decimal form.) -/
inductive AppendOp where
  | integer (n : Int)
  | float (shortest : String)
  | text (t : String)
  | absent
deriving DecidableEq, Repr

/-- Effect of one append operation on the serializer state. -/
def applyAppendOp (s : IndexedSerializer) : AppendOp → IndexedSerializer
  | .integer n => s.append_integer n
  | .float shortest => s.append_float shortest
  | .text t => s.append t
  | .absent => (s.serialize_none).2

/-- Run a sequence of append operations left to right on one instance. -/
def runAppendOps (s : IndexedSerializer) : List AppendOp → IndexedSerializer
  | [] => s
  | op :: rest => runAppendOps (applyAppendOp s op) rest

/-- Number of integer/float/text append operations in a trace (absent
appends excluded). -/
def countNonAbsentAppends (ops : List AppendOp) : Nat :=
  ops.countP fun op => match op with | .absent => false | _ => true

/-- The supported primitive value shapes: the ones the value dispatcher
routes to the append engine or the binary encoder. -/
def isPrimitive : Value → Bool
  | .bool _ => true
  | .int _ => true
  | .float _ => true
  | .char _ => true
  | .str _ => true
  | .bytes _ => true
  | _ => false

/-- The direct text form of a primitive value, as the spec describes it:
"1"/"0" for booleans, decimal with optional leading minus for integers,
the shortest round-trippable decimal for floats, the character or string
itself, base64 for bytes. -/
def directTextForm : Value → String
  | .bool v => if v then "1" else "0"
  | .int v => toString v
  | .float shortest => shortest
  | .char v => String.mk [v]
  | .str v => v
  | .bytes v => String.mk (base64EncodeUrlSafe v)
  | _ => ""

theorem append_integer_is_start (s : IndexedSerializer) (n : Int) :
    (s.append_integer n).is_start = false := by
  unfold IndexedSerializer.append_integer
  split
  · rfl
  · next h => simpa using h

theorem append_float_is_start (s : IndexedSerializer) (r : String) :
    (s.append_float r).is_start = false := by
  unfold IndexedSerializer.append_float
  split
  · rfl
  · next h => simpa using h

theorem append_is_start (s : IndexedSerializer) (t : String) :
    (s.append t).is_start = false := by
  unfold IndexedSerializer.append
  split
  · rfl
  · next h => simpa using h

theorem b64Char_mem (n : Nat) : b64Char n ∈ URL_SAFE_ALPHABET := by
  unfold b64Char
  rcases Nat.lt_or_ge n URL_SAFE_ALPHABET.length with h | h
  · rw [List.getD_eq_getElem _ _ h]
    exact List.getElem_mem h
  · rw [List.getD_eq_default _ _ h]
    decide

theorem base64_chars (v : List Nat) :
    ∀ c ∈ base64EncodeUrlSafe v, c ∈ URL_SAFE_ALPHABET ∨ c = '=' := by
  induction v using base64EncodeUrlSafe.induct with
  | case1 =>
      intro c hc
      simp [base64EncodeUrlSafe] at hc
  | case2 b1 =>
      intro c hc
      simp only [base64EncodeUrlSafe, List.mem_cons, List.not_mem_nil, or_false] at hc
      rcases hc with rfl | rfl | rfl | rfl
      · exact Or.inl (b64Char_mem _)
      · exact Or.inl (b64Char_mem _)
      · exact Or.inr rfl
      · exact Or.inr rfl
  | case3 b1 b2 =>
      intro c hc
      simp only [base64EncodeUrlSafe, List.mem_cons, List.not_mem_nil, or_false] at hc
      rcases hc with rfl | rfl | rfl | rfl
      · exact Or.inl (b64Char_mem _)
      · exact Or.inl (b64Char_mem _)
      · exact Or.inl (b64Char_mem _)
      · exact Or.inr rfl
  | case4 b1 b2 b3 rest ih =>
      intro c hc
      simp only [base64EncodeUrlSafe, List.cons_append, List.nil_append, List.mem_cons] at hc
      rcases hc with rfl | rfl | rfl | rfl | hc
      · exact Or.inl (b64Char_mem _)
      · exact Or.inl (b64Char_mem _)
      · exact Or.inl (b64Char_mem _)
      · exact Or.inl (b64Char_mem _)
      · exact ih c hc

theorem base64_length (v : List Nat) :
    (base64EncodeUrlSafe v).length = 4 * ((v.length + 2) / 3) := by
  induction v using base64EncodeUrlSafe.induct with
  | case1 => simp [base64EncodeUrlSafe]
  | case2 b1 => simp [base64EncodeUrlSafe]
  | case3 b1 b2 => simp [base64EncodeUrlSafe]
  | case4 b1 b2 b3 rest ih =>
      simp only [base64EncodeUrlSafe, List.length_append, List.length_cons, List.length_nil, ih]
      omega

theorem runAppendOps_is_start (ops : List AppendOp) :
    ∀ s : IndexedSerializer,
      (runAppendOps s ops).is_start = (s.is_start && (countNonAbsentAppends ops == 0)) := by
  induction ops with
  | nil =>
      intro s
      simp [runAppendOps, countNonAbsentAppends]
  | cons op rest ih =>
      intro s
      cases op with
      | integer n =>
          simp only [runAppendOps, ih, applyAppendOp, append_integer_is_start,
            countNonAbsentAppends, List.countP_cons, Bool.false_and]
          simp
      | float r =>
          simp only [runAppendOps, ih, applyAppendOp, append_float_is_start,
            countNonAbsentAppends, List.countP_cons, Bool.false_and]
          simp
      | text t =>
          simp only [runAppendOps, ih, applyAppendOp, append_is_start,
            countNonAbsentAppends, List.countP_cons, Bool.false_and]
          simp
      | absent =>
          simp only [runAppendOps, ih, applyAppendOp, IndexedSerializer.serialize_none,
            countNonAbsentAppends, List.countP_cons]
          simp

/-- C1: the claim says `serialize_bytes` appends its base64 output through
the same delimiter discipline as text appends. The code does not: with
delimiter "," and `is_start` already false after appending the integer 5,
`serialize_bytes [0,1,2]` appends "AAEC" with no delimiter, giving "5AAEC"
rather than "5,AAEC"; and as the very first operation it leaves `is_start`
true, so the delimiter before the next segment is also lost. -/
theorem C1_bytes_skip_delimiter_discipline :
    (((IndexedSerializer.new "," false).append_integer 5).is_start = false) ∧
    ((((IndexedSerializer.new "," false).append_integer 5).serialize_bytes [0, 1, 2]).2.finish
      = "5AAEC") ∧
    ((((IndexedSerializer.new "," false).append_integer 5).serialize_bytes [0, 1, 2]).2.finish
      ≠ "5,AAEC") ∧
    (((IndexedSerializer.new "," false).serialize_bytes [0, 1, 2]).2.is_start = true) := by
  refine ⟨rfl, rfl, ?_, rfl⟩
  decide

/-- C2, counterexample: after the single operation `append_absent`
(`serialize_none`), one append operation has occurred but `is_start` is
still true, so "`is_start` is true iff zero append operations
(integer/float/text/absent) have occurred" fails. -/
theorem C2_counterexample :
    ¬ ((runAppendOps (IndexedSerializer.new "," false) [AppendOp.absent]).is_start = true ↔
        [AppendOp.absent].length = 0) := by
  decide

/-- C2, amended: for every sequence of append operations on one fresh
instance, `is_start` is true if and only if zero integer/float/text append
operations have occurred; absent appends (`serialize_none`) never consult
or clear `is_start`. -/
theorem C2_is_start_iff_no_nonabsent_append :
    ∀ (delimiter : String) (map_like : Bool) (ops : List AppendOp),
      (runAppendOps (IndexedSerializer.new delimiter map_like) ops).is_start = true ↔
        countNonAbsentAppends ops = 0 := by
  intro delimiter map_like ops
  rw [runAppendOps_is_start]
  simp [IndexedSerializer.new]

/-- C3: `serialize_none` always succeeds, appends exactly the delimiter
regardless of state, leaves `is_start` untouched, and the record
`{a: None, b: 5}` with delimiter "," and `map_like = false` encodes to
",5". -/
theorem C3_absent_always_delimits :
    (∀ s : IndexedSerializer,
      (s.serialize_none).1 = .ok () ∧
      (s.serialize_none).2.buffer = s.buffer ++ s.delimiter ∧
      (s.serialize_none).2.is_start = s.is_start) ∧
    encodeValue "," false
      (Value.struct "S" (Fields.cons "a" Value.none (Fields.cons "b" (Value.int 5) Fields.nil)))
      = .ok ",5" :=
  ⟨fun _ => ⟨rfl, rfl, rfl⟩, rfl⟩

/-- C4, counterexample: the 1-byte input [0] encodes (padded) to "AA==",
4 characters, not `ceil(1 * 4 / 3) = 2` characters as the claim's size
formula demands. -/
theorem C4_counterexample :
    ((IndexedSerializer.new "," false).serialize_bytes [0]).2.finish = "AA==" ∧
    ¬ (((IndexedSerializer.new "," false).serialize_bytes [0]).2.finish.length
        = (1 * 4 + 2) / 3) := by
  refine ⟨rfl, ?_⟩
  decide

/-- C4, amended: `serialize_bytes` always succeeds and appends exactly the
padded URL-safe base64 encoding of the input: `4 * ceil(n / 3)` characters
for `n` input bytes, none of which is '+' or '/'; in particular the 3-byte
input [0,1,2] produces exactly 4 characters. -/
theorem C4_padded_base64_length :
    ∀ (s : IndexedSerializer) (v : List Nat),
      (s.serialize_bytes v).1 = .ok () ∧
      (s.serialize_bytes v).2.buffer = s.buffer ++ base64EncodeUrlSafe v ∧
      (base64EncodeUrlSafe v).length = 4 * ((v.length + 2) / 3) ∧
      '+' ∉ base64EncodeUrlSafe v ∧
      '/' ∉ base64EncodeUrlSafe v ∧
      (base64EncodeUrlSafe [0, 1, 2]).length = 4 := by
  intro s v
  refine ⟨rfl, rfl, base64_length v, ?_, ?_, rfl⟩
  · intro h
    rcases base64_chars v _ h with hm | he
    · revert hm
      decide
    · exact absurd he (by decide)
  · intro h
    rcases base64_chars v _ h with hm | he
    · revert hm
      decide
    · exact absurd he (by decide)

/-- C5: every unsupported shape — sequences, maps, tuples, unit, the
enum-with-payload variants, display-formatted values — is rejected with an
"unsupported shape" error naming the serde method, and the serializer
state (in particular its buffer) is returned exactly as it was. -/
theorem C5_unsupported_shapes_reject_without_mutation (s : IndexedSerializer) :
    (∀ elems, serializeValue (Value.seq elems) s = (.error (.unsupported "serialize_seq"), s)) ∧
    (∀ entries, serializeValue (Value.map entries) s = (.error (.unsupported "serialize_map"), s)) ∧
    (∀ elems, serializeValue (Value.tuple elems) s = (.error (.unsupported "serialize_tuple"), s)) ∧
    serializeValue Value.unit s = (.error (.unsupported "serialize_unit"), s) ∧
    (∀ name i variant v, serializeValue (Value.newtypeVariant name i variant v) s
      = (.error (.unsupported "serialize_newtype_variant"), s)) ∧
    (∀ name i variant elems, serializeValue (Value.tupleVariant name i variant elems) s
      = (.error (.unsupported "serialize_tuple_variant"), s)) ∧
    (∀ name i variant fields, serializeValue (Value.structVariant name i variant fields) s
      = (.error (.unsupported "serialize_struct_variant"), s)) ∧
    (∀ displayed, serializeValue (Value.displayValue displayed) s
      = (.error (.unsupported "collect_str"), s)) :=
  ⟨fun _ => rfl, fun _ => rfl, fun _ => rfl, rfl, fun _ _ _ _ => rfl, fun _ _ _ _ => rfl,
    fun _ _ _ _ => rfl, fun _ => rfl⟩

/-- C6: encoding a record with a single field holding any supported
primitive value, with `map_like = false`, yields exactly that value's
direct text form: "1"/"0" for booleans, the decimal form (with leading
minus when negative) for integers, the shortest round-trippable decimal
for floats, the character or string itself, base64 for bytes. -/
theorem C6_single_field_direct_text_form (delimiter : String) (v : Value)
    (h : isPrimitive v = true) :
    encodeValue delimiter false (Value.struct "S" (Fields.cons "f" v Fields.nil))
      = .ok (directTextForm v) := by
  cases v
  case bool b => cases b <;> rfl
  case int n => rfl
  case float r => rfl
  case char c => rfl
  case str t => rfl
  case bytes bs => rfl
  all_goals simp [isPrimitive] at h

/-- C6, witness: the integer 42 is a supported primitive and its
single-field record encodes to "42". -/
theorem C6_witness :
    isPrimitive (Value.int 42) = true ∧
    encodeValue "," false (Value.struct "S" (Fields.cons "f" (Value.int 42) Fields.nil))
      = .ok "42" :=
  ⟨by decide, C6_single_field_direct_text_form "," (Value.int 42) (by decide)⟩

/-- C7: with `map_like = true`, one record field becomes two appended
segments — name, then value — each preceded by its own delimiter beyond
the first segment (shown for an already-started serializer), and
`{x: 1, y: 2}` with delimiter ":" encodes to "x:1:y:2". -/
theorem C7_map_like_two_segments :
    (∀ (del buf : List Char) (k : String) (n : Int),
      (serializeFields (Fields.cons k (Value.int n) Fields.nil)
          (IndexedSerializer.mk del buf true false)).2.buffer
        = buf ++ del ++ k.data ++ del ++ (toString n).data) ∧
    encodeValue ":" true
      (Value.struct "S" (Fields.cons "x" (Value.int 1) (Fields.cons "y" (Value.int 2) Fields.nil)))
      = .ok "x:1:y:2" := by
  constructor
  · intro del buf k n
    simp [serializeFields, serializeValue, IndexedSerializer.append,
      IndexedSerializer.append_integer]
  · rfl

/-- C8: a nested record is traversed through the same protocol on the
same serializer instance (`serialize_struct` merely returns the instance,
ignoring name and field count), so nesting composes flatly with no
grouping syntax: `{inner: {p: 1, q: 2}, r: 3}` with `map_like = false`
and delimiter "," encodes to "1,2,3". -/
theorem C8_nested_records_flatten :
    (∀ (name : String) (fields : Fields) (s : IndexedSerializer),
      serializeValue (Value.struct name fields) s = serializeFields fields s) ∧
    encodeValue "," false
      (Value.struct "Outer"
        (Fields.cons "inner"
          (Value.struct "Inner"
            (Fields.cons "p" (Value.int 1) (Fields.cons "q" (Value.int 2) Fields.nil)))
          (Fields.cons "r" (Value.int 3) Fields.nil)))
      = .ok "1,2,3" :=
  ⟨fun _ _ _ => rfl, rfl⟩

/-- C9: serializing a present optional `Some(v)` is literally serializing
the contained value on the same state — identical result and identical
final state, with no extra delimiter or wrapping. -/
theorem C9_some_is_transparent :
    ∀ (v : Value) (s : IndexedSerializer),
      serializeValue (Value.some v) s = serializeValue v s :=
  fun _ _ => rfl

/-- C10: a newtype struct is not transparently unwrapped: for every
wrapped value and every state, it fails with the "unsupported shape" error
naming `serialize_newtype_struct`, leaving the state unchanged. -/
theorem C10_newtype_struct_rejected :
    ∀ (name : String) (v : Value) (s : IndexedSerializer),
      serializeValue (Value.newtypeStruct name v) s
        = (.error (.unsupported "serialize_newtype_struct"), s) :=
  fun _ _ _ => rfl

end DashRs
